import Mathlib

/-!
Shallow embedding of the alerting-rule taxonomy and validation code of the
pgdash repository (the `api` package: filters, units, rule taxonomy,
`Filter.IsValid`, `AlertingRule.IsValid`, `AlertSettings`), together with
the snapshot boundary check performed by the CLI layer (`main.go`,
`getReport`). Machine integers are modelled as `Int`; Go `float64` values
are modelled by `GoFloat` below, capturing exactly the observations the
validator makes (sign of a finite value, NaN, infinity).
-/

namespace PgdashApi

/-- Model of a Go `float64` as the validator observes it: a finite rational
value, NaN, or one of the two infinities. The source only compares a value
with zero (IEEE semantics: `NaN < 0` is false, `-Inf < 0` is true) and asks
`math.IsNaN` / `math.IsInf(x, 0)`. -/
inductive GoFloat where
  | finite (q : ℚ)
  | nan
  | posInf
  | negInf
  deriving DecidableEq

/-- Go expression `x < 0` on a `float64`. -/
def GoFloat.ltZero : GoFloat → Bool
  | .finite q => decide (q < 0)
  | .nan => false
  | .posInf => false
  | .negInf => true

/-- Go `math.IsNaN x`. -/
def GoFloat.isNaN : GoFloat → Bool
  | .nan => true
  | _ => false

/-- Go `math.IsInf x 0`: true for either infinity. -/
def GoFloat.isInf : GoFloat → Bool
  | .posInf => true
  | .negInf => true
  | _ => false

/-! Filter predicates (`FilterPred*` constants of the source). -/

def FilterPredNone : Int := 0

def FilterPredContains : Int := 1

def FilterPredNotContains : Int := 2

def FilterPredStartsWith : Int := 3

def FilterPredEndsWith : Int := 4

def FilterPredEquals : Int := 5

/-- Source constant `_filterPredMin = FilterPredContains`. -/
def filterPredMin : Int := FilterPredContains

/-- Source constant `_filterPredMax = FilterPredEquals`. -/
def filterPredMax : Int := FilterPredEquals

/-! Filter types (`FilterNone`, `FilterPred`, `FilterParent`). -/

def FilterNone : Int := 0

def FilterPred : Int := 1

def FilterParent : Int := 2

/-- The `Filter` struct: optionally restricts an alert rule to a subset of
objects. -/
structure Filter where
  FilterType : Int
  Predicate : Int
  Value : String
  deriving DecidableEq

/-- Go method `(f *Filter) IsValid() bool`: switch on `FilterType`; for
`FilterPred` the predicate must lie between `_filterPredMin` and
`_filterPredMax` and the value must be non-empty (`len(f.Value) > 0`); for
`FilterParent` only the value is checked; unknown filter types are
invalid. -/
def Filter.IsValid (f : Filter) : Bool :=
  if f.FilterType = FilterNone then
    -- Predicate and Value are ignored
    true
  else if f.FilterType = FilterPred then
    if f.Predicate < filterPredMin ∨ filterPredMax < f.Predicate then
      false
    else
      decide (0 < f.Value.length) -- Value is required
  else if f.FilterType = FilterParent then
    decide (0 < f.Value.length) -- Value is required, Predicate is ignored
  else
    -- invalid filter type
    false

/-! Units (`Unit*` constants). -/

def UnitNone : Int := 0

def UnitBytes : Int := 1

def UnitKiB : Int := 2

def UnitMiB : Int := 3

def UnitGiB : Int := 4

def UnitTiB : Int := 5

def UnitSeconds : Int := 101

def UnitMinutes : Int := 102

def UnitHours : Int := 103

def UnitDays : Int := 104

/-! Rule IDs, server-level (1 to 13). -/

def RuleServerWALCount : Int := 1

def RuleServerWALReadyCount : Int := 2

def RuleServerInactiveReplSlots : Int := 3

def RuleServerPryWriteLag : Int := 4

def RuleServerPryFlushLag : Int := 5

def RuleServerPryReplayLag : Int := 6

def RuleServerSbyReplayLagBytes : Int := 7

def RuleServerSbyReplayLagTime : Int := 8

def RuleServerBELockWait : Int := 9

def RuleServerBEIdleInTxn : Int := 10

def RuleServerBETxnOpen : Int := 11

def RuleServerTxnIDRange : Int := 12

def RuleServerLastCP : Int := 13

def ruleServerMin : Int := 1

def ruleServerMax : Int := 13

/-! Rule IDs, database-level (101 to 107). -/

def RuleDBBECount : Int := 101

def RuleDBBEPct : Int := 102

def RuleDBCommitRatio : Int := 103

def RuleDBTxnIDAge : Int := 104

def RuleDBSize : Int := 105

def RuleDBDisabledTriggers : Int := 106

def RuleDBCacheHit : Int := 107

def ruleDBMin : Int := 101

def ruleDBMax : Int := 107

/-! Rule IDs, table-level (201 to 208). -/

def RuleTableAutoVacTime : Int := 201

def RuleTableAutoAnaTime : Int := 202

def RuleTableManVacTime : Int := 203

def RuleTableManAnaTime : Int := 204

def RuleTableBloatBytes : Int := 205

def RuleTableBloatPct : Int := 206

def RuleTableSize : Int := 207

def RuleTableCacheHit : Int := 208

def ruleTableMin : Int := 201

def ruleTableMax : Int := 208

/-! Rule IDs, tablespace-level (301 to 303). -/

def RuleTSSize : Int := 301

def RuleTSDiskFreePct : Int := 302

def RuleTSInodesFreePct : Int := 303

def ruleTSMin : Int := 301

def ruleTSMax : Int := 303

/-- Source `ruleNeedsUnit1None`: rule traits, unit1 is none. -/
def ruleNeedsUnit1None (r : Int) : Bool :=
  decide (r = RuleServerWALCount ∨ r = RuleServerWALReadyCount ∨
    r = RuleServerInactiveReplSlots ∨ r = RuleServerBELockWait ∨
    r = RuleServerBEIdleInTxn ∨ r = RuleServerTxnIDRange ∨
    r = RuleDBBECount ∨ r = RuleDBBEPct ∨ r = RuleDBCommitRatio ∨
    r = RuleDBTxnIDAge ∨ r = RuleDBDisabledTriggers ∨
    r = RuleDBCacheHit ∨ r = RuleTableBloatPct ∨ r = RuleTableCacheHit ∨
    r = RuleTSDiskFreePct ∨ r = RuleTSInodesFreePct)

/-- Source `ruleNeedsUnit1Bytes`: rule traits, unit1 is bytes/k/m/g/t. -/
def ruleNeedsUnit1Bytes (r : Int) : Bool :=
  decide (r = RuleServerPryWriteLag ∨ r = RuleServerPryFlushLag ∨
    r = RuleServerPryReplayLag ∨ r = RuleServerSbyReplayLagBytes ∨
    r = RuleDBSize ∨ r = RuleTableBloatBytes ∨ r = RuleTableSize ∨
    r = RuleTSSize)

/-- Source `ruleNeedsUnit1Time`: rule traits, unit1 is sec/min/hr/day. -/
def ruleNeedsUnit1Time (r : Int) : Bool :=
  decide (r = RuleServerSbyReplayLagTime ∨ r = RuleTableAutoVacTime ∨
    r = RuleTableAutoAnaTime ∨ r = RuleTableManVacTime ∨
    r = RuleTableManAnaTime ∨ r = RuleServerBETxnOpen ∨
    r = RuleServerLastCP)

/-- The `AlertingRule` struct: a single alerting rule. A `nil` filter pointer
is modelled by `none`. -/
structure AlertingRule where
  RuleType : Int
  Filter : Option Filter
  Value1 : GoFloat
  Unit1 : Int
  Value2 : GoFloat
  Unit2 : Int
  Warn : Bool
  deriving DecidableEq

/-- First block of `AlertingRule.IsValid`: the switch that checks whether the
filter is appropriate for the rule (and thereby the rule type range). -/
def filterOK (a : AlertingRule) : Bool :=
  if ruleServerMin ≤ a.RuleType ∧ a.RuleType ≤ ruleServerMax then
    match a.Filter with
    | none => true
    | some f => decide (f.FilterType = FilterNone) -- filter cannot be set at server-level
  else if (ruleDBMin ≤ a.RuleType ∧ a.RuleType ≤ ruleDBMax) ∨
      (ruleTSMin ≤ a.RuleType ∧ a.RuleType ≤ ruleTSMax) then
    match a.Filter with
    | none => true
    | some f =>
      -- if filter is present, it must be valid;
      -- only none & predicate filter allowed for db and tablespace
      f.IsValid &&
        (decide (f.FilterType = FilterNone) || decide (f.FilterType = FilterPred))
  else if ruleTableMin ≤ a.RuleType ∧ a.RuleType ≤ ruleTableMax then
    match a.Filter with
    | none => true
    | some f => f.IsValid -- if filter is present, it must be valid
  else
    -- unknown rule type
    false

/-- Second block: `value1` should always be present, should not be NaN/Inf,
and be ≥ 0 (the source rejects when `Value1 < 0 || IsNaN || IsInf`). -/
def value1OK (a : AlertingRule) : Bool :=
  !(a.Value1.ltZero || a.Value1.isNaN || a.Value1.isInf)

/-- Third block: the switch on `Unit1` — none for some rules, bytes/k/m/g/t
for some rules, sec/min/hr/day for some rules, anything else is an unknown
unit. -/
def unit1OK (a : AlertingRule) : Bool :=
  if a.Unit1 = UnitNone then
    ruleNeedsUnit1None a.RuleType
  else if a.Unit1 = UnitBytes ∨ a.Unit1 = UnitKiB ∨ a.Unit1 = UnitMiB ∨
      a.Unit1 = UnitGiB ∨ a.Unit1 = UnitTiB then
    ruleNeedsUnit1Bytes a.RuleType
  else if a.Unit1 = UnitSeconds ∨ a.Unit1 = UnitMinutes ∨
      a.Unit1 = UnitHours ∨ a.Unit1 = UnitDays then
    ruleNeedsUnit1Time a.RuleType
  else
    false -- unknown unit

/-- Fourth block: only for rule `RuleServerBETxnOpen` there is a second
value; it must not be negative/NaN/Inf and `Unit2` must be `UnitNone`. -/
def value2OK (a : AlertingRule) : Bool :=
  if a.RuleType = RuleServerBETxnOpen then
    !(a.Value2.ltZero || a.Value2.isNaN || a.Value2.isInf) &&
      decide (a.Unit2 = UnitNone)
  else
    true

/-- Go method `(a *AlertingRule) IsValid() bool`: the four blocks above in
source order, returning false at the first failing check. -/
def AlertingRule.IsValid (a : AlertingRule) : Bool :=
  filterOK a && value1OK a && unit1OK a && value2OK a

/-- The `AlertSettings` struct: the entire alert settings for a single
server. -/
structure AlertSettings where
  Version : Int
  Rules : List AlertingRule
  Emails : List String

/-- Modelled from the spec: the repository source declares the
`AlertSettings` struct but contains no aggregate validity method for it;
§4.4 specifies `AlertSettings.isValid() -> bool`: true iff every element of
`rules` independently satisfies the per-rule validation contract and
`emails` contains only syntactically acceptable addresses (format check
only). The spec fixes no concrete address syntax, so the plausibility
format check is a parameter. -/
def AlertSettings.isValid (emailFmt : String → Bool) (s : AlertSettings) : Bool :=
  s.Rules.all (fun r => r.IsValid) && s.Emails.all emailFmt

/-! The CLI boundary check of `main.go` (`getReport`). Times are modelled at
Go nanosecond resolution: the collection timestamp `Metadata.At` is a Unix
second count, `time.Now()` an arbitrary nanosecond count. -/

/-- Go `strings.HasPrefix`, on the character lists of the two strings. -/
def goStartsWith (p s : String) : Bool :=
  p.data.isPrefixOf s.data

/-- Source constant `sixMonths = time.Duration(180 * 24 * time.Hour)`,
converted to nanoseconds (a Go `time.Duration` is a nanosecond count). -/
def sixMonthsNs : Int := 180 * 24 * 3600 * 1000000000

/-- The validation performed by `getReport` on a successfully decoded
snapshot: the schema version must start with major-version prefix 1
(`strings.HasPrefix(ver, "1.")`), and `time.Unix(at, 0)` must be neither
before `now - sixMonths` nor after `now + sixMonths`. Returns true when the
snapshot is accepted (the CLI otherwise terminates with `log.Fatalf`). -/
def getReportOK (ver : String) (atSec nowNs : Int) : Bool :=
  if !goStartsWith ("1.") ver then
    false
  else if atSec * 1000000000 < nowNs - sixMonthsNs ∨
      nowNs + sixMonthsNs < atSec * 1000000000 then
    false
  else
    true

/-! Theorems. -/

/-- Claim C5: `Filter.IsValid` holds exactly as follows: for `FilterType`
`None` it returns true with predicate and value ignored; for `ByPredicate`
it returns true iff the predicate is one of the five named predicates and
the value string is non-empty; for `ByParent` it returns true iff the value
string is non-empty, with the predicate ignored. -/
theorem filter_isValid_cases (f : Filter) :
    (f.FilterType = FilterNone → f.IsValid = true) ∧
    (f.FilterType = FilterPred →
      (f.IsValid = true ↔
        ((f.Predicate = FilterPredContains ∨ f.Predicate = FilterPredNotContains ∨
          f.Predicate = FilterPredStartsWith ∨ f.Predicate = FilterPredEndsWith ∨
          f.Predicate = FilterPredEquals) ∧ 0 < f.Value.length))) ∧
    (f.FilterType = FilterParent → (f.IsValid = true ↔ 0 < f.Value.length)) := by
  refine ⟨fun h0 => ?_, fun h1 => ?_, fun h2 => ?_⟩
  · unfold Filter.IsValid
    rw [if_pos h0]
  · unfold Filter.IsValid
    rw [if_neg (by rw [h1]; decide), if_pos h1]
    simp only [filterPredMin, filterPredMax, FilterPredContains, FilterPredNotContains,
      FilterPredStartsWith, FilterPredEndsWith, FilterPredEquals]
    split_ifs with hp
    · simp only [Bool.false_eq_true, false_iff, not_and]
      rintro (hq | hq | hq | hq | hq) <;> omega
    · rw [decide_eq_true_iff]
      constructor
      · intro hv
        exact ⟨by omega, hv⟩
      · intro hv
        exact hv.2
  · unfold Filter.IsValid
    rw [if_neg (by rw [h2]; decide), if_neg (by rw [h2]; decide), if_pos h2]
    rw [decide_eq_true_iff]

/-- Witness for C5: evaluates the three cases on concrete filters. -/
theorem filter_isValid_cases_witness :
    (Filter.mk 0 9 "").IsValid = true ∧
    ((Filter.mk 1 3 "x").IsValid = true ↔
      (((3 : Int) = FilterPredContains ∨ (3 : Int) = FilterPredNotContains ∨
        (3 : Int) = FilterPredStartsWith ∨ (3 : Int) = FilterPredEndsWith ∨
        (3 : Int) = FilterPredEquals) ∧ 0 < ("x").length)) ∧
    ((Filter.mk 2 0 "x").IsValid = true ↔ 0 < ("x").length) :=
  ⟨(filter_isValid_cases (Filter.mk 0 9 "")).1 rfl,
   (filter_isValid_cases (Filter.mk 1 3 "x")).2.1 rfl,
   (filter_isValid_cases (Filter.mk 2 0 "x")).2.2 rfl⟩

/-- Claim C10: for every `Filter` whose `FilterType` is not one of the three
defined values (`FilterNone` = 0, `FilterPred` = 1, `FilterParent` = 2), the
structural validity check `Filter.IsValid` returns false, regardless of the
predicate and value fields. -/
theorem filter_unknown_type_invalid (f : Filter)
    (h0 : f.FilterType ≠ FilterNone) (h1 : f.FilterType ≠ FilterPred)
    (h2 : f.FilterType ≠ FilterParent) :
    f.IsValid = false := by
  unfold Filter.IsValid
  rw [if_neg h0, if_neg h1, if_neg h2]

/-- Witness for C10: a filter with type 7 is invalid whatever the other
fields hold. -/
theorem filter_unknown_type_invalid_witness :
    (Filter.mk 7 3 "x").IsValid = false :=
  filter_unknown_type_invalid (Filter.mk 7 3 "x") (by decide) (by decide) (by decide)

/-- Claim C2: for every `AlertingRule` whose `RuleType` lies outside the
union of the four declared ranges 1-13, 101-107, 201-208 and 301-303,
`AlertingRule.IsValid` returns false, regardless of the values of all other
fields; an unknown rule type is always a validation failure. -/
theorem unknown_ruleType_invalid (a : AlertingRule)
    (h : ¬((1 ≤ a.RuleType ∧ a.RuleType ≤ 13) ∨
        (101 ≤ a.RuleType ∧ a.RuleType ≤ 107) ∨
        (201 ≤ a.RuleType ∧ a.RuleType ≤ 208) ∨
        (301 ≤ a.RuleType ∧ a.RuleType ≤ 303))) :
    a.IsValid = false := by
  have hfo : filterOK a = false := by
    unfold filterOK
    simp only [ruleServerMin, ruleServerMax, ruleDBMin, ruleDBMax, ruleTSMin,
      ruleTSMax, ruleTableMin, ruleTableMax]
    rw [if_neg (fun hc => h (Or.inl hc)),
      if_neg (fun hc => h (hc.elim (fun x => Or.inr (Or.inl x))
        (fun x => Or.inr (Or.inr (Or.inr x))))),
      if_neg (fun hc => h (Or.inr (Or.inr (Or.inl hc))))]
  simp [AlertingRule.IsValid, hfo]

/-- Witness for C2: rule type 50 is rejected even with otherwise legal
fields. -/
theorem unknown_ruleType_invalid_witness :
    (AlertingRule.mk 50 none (GoFloat.finite 1) 0 (GoFloat.finite 0) 0 false).IsValid = false :=
  unknown_ruleType_invalid
    (AlertingRule.mk 50 none (GoFloat.finite 1) 0 (GoFloat.finite 0) 0 false) (by decide)

/-- Claim C6: for every `AlertingRule` and every rule type, if `Value1` is
negative, NaN, or positive or negative infinity, `AlertingRule.IsValid`
returns false. -/
theorem value1_range_required (a : AlertingRule)
    (h : (∃ q, a.Value1 = GoFloat.finite q ∧ q < 0) ∨ a.Value1 = GoFloat.nan ∨
      a.Value1 = GoFloat.posInf ∨ a.Value1 = GoFloat.negInf) :
    a.IsValid = false := by
  have hv : value1OK a = false := by
    unfold value1OK
    rcases h with ⟨q, hq, hlt⟩ | h | h | h
    · rw [hq]
      simp [GoFloat.ltZero, GoFloat.isNaN, GoFloat.isInf, hlt]
    · rw [h]
      decide
    · rw [h]
      decide
    · rw [h]
      decide
  simp [AlertingRule.IsValid, hv]

/-- Witness for C6: `value1 = -1` fails on rule type 1. -/
theorem value1_range_required_witness :
    (AlertingRule.mk 1 none (GoFloat.finite (-1)) 0 (GoFloat.finite 0) 0 false).IsValid = false :=
  value1_range_required
    (AlertingRule.mk 1 none (GoFloat.finite (-1)) 0 (GoFloat.finite 0) 0 false)
    (Or.inl ⟨-1, rfl, by norm_num⟩)

/-- Claim C1: filter legality in rule validation is determined by the rule's
scope. Server-range rules (1-13) fail when a filter with a non-`None` type
is present; database-range (101-107) and tablespace-range (301-303) rules
require a present filter to be structurally valid and of type `None` or
`ByPredicate`; table-range rules (201-208) require a present filter to be
structurally valid, and any of the three filter types passes the scope
check. -/
theorem filter_scope_legality (a : AlertingRule) (f : Filter) :
    ((1 ≤ a.RuleType ∧ a.RuleType ≤ 13) → a.Filter = some f →
      f.FilterType ≠ FilterNone → a.IsValid = false) ∧
    (((101 ≤ a.RuleType ∧ a.RuleType ≤ 107) ∨ (301 ≤ a.RuleType ∧ a.RuleType ≤ 303)) →
      a.Filter = some f → a.IsValid = true →
      f.IsValid = true ∧ (f.FilterType = FilterNone ∨ f.FilterType = FilterPred)) ∧
    ((201 ≤ a.RuleType ∧ a.RuleType ≤ 208) → a.Filter = some f → a.IsValid = true →
      f.IsValid = true) ∧
    ((201 ≤ a.RuleType ∧ a.RuleType ≤ 208) → a.Filter = some f → f.IsValid = true →
      filterOK a = true) := by
  refine ⟨fun hr hf hne => ?_, fun hr hf hv => ?_, fun hr hf hv => ?_, fun hr hf hfv => ?_⟩
  · have hfo : filterOK a = false := by
      unfold filterOK
      simp only [ruleServerMin, ruleServerMax]
      rw [if_pos hr, hf]
      simpa using hne
    simp [AlertingRule.IsValid, hfo]
  · have hfo : filterOK a = true := by
      simp only [AlertingRule.IsValid, Bool.and_eq_true] at hv
      exact hv.1.1.1
    unfold filterOK at hfo
    simp only [ruleServerMin, ruleServerMax, ruleDBMin, ruleDBMax, ruleTSMin,
      ruleTSMax] at hfo
    rw [if_neg (by rcases hr with hr | hr <;> omega),
      if_pos (by rcases hr with hr | hr <;> omega), hf] at hfo
    simpa [Bool.and_eq_true, Bool.or_eq_true] using hfo
  · have hfo : filterOK a = true := by
      simp only [AlertingRule.IsValid, Bool.and_eq_true] at hv
      exact hv.1.1.1
    unfold filterOK at hfo
    simp only [ruleServerMin, ruleServerMax, ruleDBMin, ruleDBMax, ruleTSMin,
      ruleTSMax, ruleTableMin, ruleTableMax] at hfo
    rw [if_neg (by omega), if_neg (by omega), if_pos (by omega), hf] at hfo
    exact hfo
  · unfold filterOK
    simp only [ruleServerMin, ruleServerMax, ruleDBMin, ruleDBMax, ruleTSMin,
      ruleTSMax, ruleTableMin, ruleTableMax]
    rw [if_neg (by omega), if_neg (by omega), if_pos (by omega), hf]
    exact hfv

/-- Witness for C1: a server rule with a `ByParent` filter is invalid; a
valid database-size rule with a `ByPredicate` filter yields the filter-type
conclusion; a valid table-size rule with a `ByParent` filter yields filter
validity; a structurally valid `ByParent` filter passes the table scope
check. -/
theorem filter_scope_legality_witness :
    (AlertingRule.mk 1 (some (Filter.mk 2 0 "x")) (GoFloat.finite 1) 0
      (GoFloat.finite 0) 0 true).IsValid = false ∧
    ((Filter.mk 1 3 "p").IsValid = true ∧
      ((Filter.mk 1 3 "p").FilterType = FilterNone ∨
        (Filter.mk 1 3 "p").FilterType = FilterPred)) ∧
    (Filter.mk 2 0 "public").IsValid = true ∧
    filterOK (AlertingRule.mk 207 (some (Filter.mk 2 0 "public")) (GoFloat.finite 1) 1
      (GoFloat.finite 0) 0 true) = true :=
  ⟨(filter_scope_legality (AlertingRule.mk 1 (some (Filter.mk 2 0 "x")) (GoFloat.finite 1) 0
      (GoFloat.finite 0) 0 true) (Filter.mk 2 0 "x")).1 (by decide) rfl (by decide),
   (filter_scope_legality (AlertingRule.mk 105 (some (Filter.mk 1 3 "p")) (GoFloat.finite 1) 1
      (GoFloat.finite 0) 0 true) (Filter.mk 1 3 "p")).2.1 (Or.inl (by decide)) rfl (by decide),
   (filter_scope_legality (AlertingRule.mk 207 (some (Filter.mk 2 0 "public")) (GoFloat.finite 1) 1
      (GoFloat.finite 0) 0 true) (Filter.mk 2 0 "public")).2.2.1 (by decide) rfl (by decide),
   (filter_scope_legality (AlertingRule.mk 207 (some (Filter.mk 2 0 "public")) (GoFloat.finite 1) 1
      (GoFloat.finite 0) 0 true) (Filter.mk 2 0 "public")).2.2.2 (by decide) rfl (by decide)⟩

/-- Claim C3: a rule passes validation only if `Unit1` lies in exactly the
unit family its rule type requires — `UnitNone` together with the
`ruleNeedsUnit1None` trait, one of the five byte units together with
`ruleNeedsUnit1Bytes`, or one of the four time units together with
`ruleNeedsUnit1Time`; and the concrete rule
`{ruleType 107, no filter, value1 90, unit1 None, warn}` validates
successfully. -/
theorem unit1_family_exact (a : AlertingRule) :
    (a.IsValid = true →
      ((ruleNeedsUnit1None a.RuleType = true ∧ a.Unit1 = UnitNone) ∨
       (ruleNeedsUnit1Bytes a.RuleType = true ∧
         (a.Unit1 = UnitBytes ∨ a.Unit1 = UnitKiB ∨ a.Unit1 = UnitMiB ∨
          a.Unit1 = UnitGiB ∨ a.Unit1 = UnitTiB)) ∨
       (ruleNeedsUnit1Time a.RuleType = true ∧
         (a.Unit1 = UnitSeconds ∨ a.Unit1 = UnitMinutes ∨ a.Unit1 = UnitHours ∨
          a.Unit1 = UnitDays)))) ∧
    (AlertingRule.mk 107 none (GoFloat.finite 90) UnitNone
      (GoFloat.finite 0) UnitNone true).IsValid = true := by
  constructor
  · intro hv
    have hu : unit1OK a = true := by
      simp only [AlertingRule.IsValid, Bool.and_eq_true] at hv
      exact hv.1.2
    unfold unit1OK at hu
    split_ifs at hu with h1 h2 h3
    · exact Or.inl ⟨hu, h1⟩
    · exact Or.inr (Or.inl ⟨hu, h2⟩)
    · exact Or.inr (Or.inr ⟨hu, h3⟩)
  · decide

/-- Witness for C3: applying the family requirement to the valid rule
`{ruleType 107, unit1 None}`. -/
theorem unit1_family_exact_witness :
    (ruleNeedsUnit1None (AlertingRule.mk 107 none (GoFloat.finite 90) UnitNone
        (GoFloat.finite 0) UnitNone true).RuleType = true ∧
      (AlertingRule.mk 107 none (GoFloat.finite 90) UnitNone
        (GoFloat.finite 0) UnitNone true).Unit1 = UnitNone) ∨
    (ruleNeedsUnit1Bytes (AlertingRule.mk 107 none (GoFloat.finite 90) UnitNone
        (GoFloat.finite 0) UnitNone true).RuleType = true ∧
      ((AlertingRule.mk 107 none (GoFloat.finite 90) UnitNone
        (GoFloat.finite 0) UnitNone true).Unit1 = UnitBytes ∨
       (AlertingRule.mk 107 none (GoFloat.finite 90) UnitNone
        (GoFloat.finite 0) UnitNone true).Unit1 = UnitKiB ∨
       (AlertingRule.mk 107 none (GoFloat.finite 90) UnitNone
        (GoFloat.finite 0) UnitNone true).Unit1 = UnitMiB ∨
       (AlertingRule.mk 107 none (GoFloat.finite 90) UnitNone
        (GoFloat.finite 0) UnitNone true).Unit1 = UnitGiB ∨
       (AlertingRule.mk 107 none (GoFloat.finite 90) UnitNone
        (GoFloat.finite 0) UnitNone true).Unit1 = UnitTiB)) ∨
    (ruleNeedsUnit1Time (AlertingRule.mk 107 none (GoFloat.finite 90) UnitNone
        (GoFloat.finite 0) UnitNone true).RuleType = true ∧
      ((AlertingRule.mk 107 none (GoFloat.finite 90) UnitNone
        (GoFloat.finite 0) UnitNone true).Unit1 = UnitSeconds ∨
       (AlertingRule.mk 107 none (GoFloat.finite 90) UnitNone
        (GoFloat.finite 0) UnitNone true).Unit1 = UnitMinutes ∨
       (AlertingRule.mk 107 none (GoFloat.finite 90) UnitNone
        (GoFloat.finite 0) UnitNone true).Unit1 = UnitHours ∨
       (AlertingRule.mk 107 none (GoFloat.finite 90) UnitNone
        (GoFloat.finite 0) UnitNone true).Unit1 = UnitDays)) :=
  (unit1_family_exact (AlertingRule.mk 107 none (GoFloat.finite 90) UnitNone
    (GoFloat.finite 0) UnitNone true)).1 (by decide)

/-- Claim C7: over the declared taxonomy the required-unit-family mapping is
total and the families disjoint: for every rule id in the four ranges 1-13,
101-107, 201-208 and 301-303, exactly one of `ruleNeedsUnit1None`,
`ruleNeedsUnit1Bytes`, `ruleNeedsUnit1Time` returns true. -/
theorem unit_family_partition (r : Int)
    (h : (1 ≤ r ∧ r ≤ 13) ∨ (101 ≤ r ∧ r ≤ 107) ∨ (201 ≤ r ∧ r ≤ 208) ∨
      (301 ≤ r ∧ r ≤ 303)) :
    (ruleNeedsUnit1None r = true ∧ ruleNeedsUnit1Bytes r = false ∧
      ruleNeedsUnit1Time r = false) ∨
    (ruleNeedsUnit1None r = false ∧ ruleNeedsUnit1Bytes r = true ∧
      ruleNeedsUnit1Time r = false) ∨
    (ruleNeedsUnit1None r = false ∧ ruleNeedsUnit1Bytes r = false ∧
      ruleNeedsUnit1Time r = true) := by
  rcases h with ⟨h1, h2⟩ | ⟨h1, h2⟩ | ⟨h1, h2⟩ | ⟨h1, h2⟩ <;>
    interval_cases r <;> decide

/-- Witness for C7: rule id 107 falls in the `None` family and no other. -/
theorem unit_family_partition_witness :
    (ruleNeedsUnit1None 107 = true ∧ ruleNeedsUnit1Bytes 107 = false ∧
      ruleNeedsUnit1Time 107 = false) ∨
    (ruleNeedsUnit1None 107 = false ∧ ruleNeedsUnit1Bytes 107 = true ∧
      ruleNeedsUnit1Time 107 = false) ∨
    (ruleNeedsUnit1None 107 = false ∧ ruleNeedsUnit1Bytes 107 = false ∧
      ruleNeedsUnit1Time 107 = true) :=
  unit_family_partition 107 (Or.inr (Or.inl (by norm_num)))

/-- A rule of the dual-value type `RuleServerBETxnOpen` (11) exactly as it
decodes when the optional `value2` JSON field is omitted: the Go zero value
`0` for `Value2` and `UnitNone` for `Unit2`. -/
def rule11OmittedValue2 : AlertingRule :=
  AlertingRule.mk RuleServerBETxnOpen none (GoFloat.finite 5) UnitSeconds
    (GoFloat.finite 0) UnitNone false

/-- Counterexample for C4: the claim states that for rule type 11 omitting
`value2` fails validation. `Value2` is a plain `float64` struct field, so an
omitted JSON field decodes to `0`, and `0` passes the
`Value2 < 0 || IsNaN || IsInf` rejection test: the rule validates. -/
theorem rule11_omitted_value2_accepted : rule11OmittedValue2.IsValid = true := by
  decide

/-- Claim C4 (amended): for the dual-value rule type 11, validation
additionally requires `unit1` to be a time unit, `value2` to be non-negative,
finite and not NaN, and `unit2` to equal `None`; a negative/NaN/Inf `value2`
or a non-`None` `unit2` fails, while an omitted `value2` decodes to `0` and
passes. For every other rule type, validity never depends on `value2` or
`unit2`. -/
theorem rule11_value2_unit2 (a : AlertingRule) :
    (a.RuleType = RuleServerBETxnOpen → a.IsValid = true →
      ((a.Unit1 = UnitSeconds ∨ a.Unit1 = UnitMinutes ∨ a.Unit1 = UnitHours ∨
        a.Unit1 = UnitDays) ∧
       a.Value2.ltZero = false ∧ a.Value2.isNaN = false ∧ a.Value2.isInf = false ∧
       a.Unit2 = UnitNone)) ∧
    (a.RuleType = RuleServerBETxnOpen →
      (a.Value2.ltZero = true ∨ a.Value2.isNaN = true ∨ a.Value2.isInf = true ∨
        a.Unit2 ≠ UnitNone) → a.IsValid = false) ∧
    (a.RuleType ≠ RuleServerBETxnOpen → ∀ v u,
      (AlertingRule.mk a.RuleType a.Filter a.Value1 a.Unit1 v u a.Warn).IsValid =
        a.IsValid) := by
  refine ⟨fun hrt hv => ?_, fun hrt hbad => ?_, fun hrt v u => ?_⟩
  · simp only [AlertingRule.IsValid, Bool.and_eq_true] at hv
    obtain ⟨⟨⟨-, -⟩, hu⟩, h2⟩ := hv
    constructor
    · unfold unit1OK at hu
      rw [hrt] at hu
      split_ifs at hu with h1 h2 h3
      · exact absurd hu (by decide)
      · exact absurd hu (by decide)
      · exact h3
    · unfold value2OK at h2
      rw [if_pos hrt] at h2
      simp only [Bool.and_eq_true, Bool.or_eq_true, Bool.not_eq_true',
        Bool.or_eq_false_iff, decide_eq_true_eq] at h2
      exact ⟨h2.1.1.1, h2.1.1.2, h2.1.2, h2.2⟩
  · have h2 : value2OK a = false := by
      unfold value2OK
      rw [if_pos hrt]
      rcases hbad with hb | hb | hb | hb
      · simp [hb]
      · simp [hb]
      · simp [hb]
      · simp [hb]
    simp [AlertingRule.IsValid, h2]
  · have hf : filterOK (AlertingRule.mk a.RuleType a.Filter a.Value1 a.Unit1 v u a.Warn) =
        filterOK a := rfl
    have h1 : value1OK (AlertingRule.mk a.RuleType a.Filter a.Value1 a.Unit1 v u a.Warn) =
        value1OK a := rfl
    have hu : unit1OK (AlertingRule.mk a.RuleType a.Filter a.Value1 a.Unit1 v u a.Warn) =
        unit1OK a := rfl
    have hv2 : value2OK (AlertingRule.mk a.RuleType a.Filter a.Value1 a.Unit1 v u a.Warn) =
        true := by
      unfold value2OK
      exact if_neg hrt
    have hv2a : value2OK a = true := by
      unfold value2OK
      exact if_neg hrt
    simp only [AlertingRule.IsValid, hf, h1, hu, hv2, hv2a]

/-- Witness for C4 (amended): a concrete valid rule of type 11 satisfies the
extracted conditions; a type-11 rule with `unit2` a time unit is invalid;
for the type-107 rule, changing `value2`/`unit2` leaves validity
unchanged. -/
theorem rule11_value2_unit2_witness :
    (((AlertingRule.mk 11 none (GoFloat.finite 5) 101 (GoFloat.finite 2) 0
        false).Unit1 = UnitSeconds ∨
      (AlertingRule.mk 11 none (GoFloat.finite 5) 101 (GoFloat.finite 2) 0
        false).Unit1 = UnitMinutes ∨
      (AlertingRule.mk 11 none (GoFloat.finite 5) 101 (GoFloat.finite 2) 0
        false).Unit1 = UnitHours ∨
      (AlertingRule.mk 11 none (GoFloat.finite 5) 101 (GoFloat.finite 2) 0
        false).Unit1 = UnitDays) ∧
      (AlertingRule.mk 11 none (GoFloat.finite 5) 101 (GoFloat.finite 2) 0
        false).Value2.ltZero = false ∧
      (AlertingRule.mk 11 none (GoFloat.finite 5) 101 (GoFloat.finite 2) 0
        false).Value2.isNaN = false ∧
      (AlertingRule.mk 11 none (GoFloat.finite 5) 101 (GoFloat.finite 2) 0
        false).Value2.isInf = false ∧
      (AlertingRule.mk 11 none (GoFloat.finite 5) 101 (GoFloat.finite 2) 0
        false).Unit2 = UnitNone) ∧
    (AlertingRule.mk 11 none (GoFloat.finite 5) 101 (GoFloat.finite 0) 101
      false).IsValid = false ∧
    (AlertingRule.mk 107 none (GoFloat.finite 90) 0 (GoFloat.nan) 55
      true).IsValid =
      (AlertingRule.mk 107 none (GoFloat.finite 90) 0 (GoFloat.finite 0) 0
        true).IsValid :=
  ⟨(rule11_value2_unit2 (AlertingRule.mk 11 none (GoFloat.finite 5) 101
      (GoFloat.finite 2) 0 false)).1 rfl (by decide),
   (rule11_value2_unit2 (AlertingRule.mk 11 none (GoFloat.finite 5) 101
      (GoFloat.finite 0) 101 false)).2.1 rfl (Or.inr (Or.inr (Or.inr (by decide)))),
   (rule11_value2_unit2 (AlertingRule.mk 107 none (GoFloat.finite 90) 0
      (GoFloat.finite 0) 0 true)).2.2 (by decide) (GoFloat.nan) 55⟩

/-- Claim C8: `AlertSettings.isValid` returns true iff every element of its
rules sequence independently satisfies the per-rule validation contract and
its emails contain only acceptable addresses under the format check; there
are no cross-rule invariants — prepending a duplicated rule changes the
result only through that rule's own validity. -/
theorem alertSettings_isValid_iff (emailFmt : String → Bool) (s : AlertSettings) :
    (s.isValid emailFmt = true ↔
      ((∀ r ∈ s.Rules, r.IsValid = true) ∧ ∀ e ∈ s.Emails, emailFmt e = true)) ∧
    (∀ r : AlertingRule,
      (AlertSettings.mk s.Version (r :: r :: s.Rules) s.Emails).isValid emailFmt =
        (r.IsValid && s.isValid emailFmt)) := by
  constructor
  · unfold AlertSettings.isValid
    simp [List.all_eq_true, Bool.and_eq_true]
  · intro r
    unfold AlertSettings.isValid
    cases hr : r.IsValid <;>
      cases hrest : s.Rules.all (fun x => x.IsValid) <;>
        simp [List.all_cons, hr, hrest]

/-- Witness for C8: a settings value with one valid rule and one email,
checked with a plausibility format that accepts everything. -/
theorem alertSettings_isValid_iff_witness :
    ((AlertSettings.mk 1 [AlertingRule.mk 107 none (GoFloat.finite 90) 0
        (GoFloat.finite 0) 0 true] [("a@b")]).isValid (fun _ => true) = true ↔
      ((∀ r ∈ [AlertingRule.mk 107 none (GoFloat.finite 90) 0
          (GoFloat.finite 0) 0 true], r.IsValid = true) ∧
        ∀ e ∈ [("a@b")], (fun _ : String => true) e = true)) :=
  (alertSettings_isValid_iff (fun _ => true)
    (AlertSettings.mk 1 [AlertingRule.mk 107 none (GoFloat.finite 90) 0
      (GoFloat.finite 0) 0 true] [("a@b")])).1

/-- Claim C9: the CLI boundary check accepts a successfully decoded snapshot
iff its schema version begins with the major-version string 1 followed by a
dot and its collection timestamp lies within the rolling ±180-day window
around the current time; a 2025 snapshot (outside the historical fixed
2018-2020 year bounds) is accepted when current, and an early-2019 snapshot
(inside those historical bounds) is rejected when the current time is in
2025 — the rolling window supersedes the fixed bounds rather than holding
alongside them. -/
theorem getReport_boundary (ver : String) (atSec nowNs : Int) :
    (getReportOK ver atSec nowNs = true ↔
      (goStartsWith ("1.") ver = true ∧
        nowNs - sixMonthsNs ≤ atSec * 1000000000 ∧
        atSec * 1000000000 ≤ nowNs + sixMonthsNs)) ∧
    getReportOK ("1.12") 1760000000 1760000000000000000 = true ∧
    getReportOK ("1.0") 1546300800 1760000000000000000 = false := by
  refine ⟨?_, by decide, by decide⟩
  unfold getReportOK
  split_ifs with h1 h2
  · simp only [Bool.not_eq_true'] at h1
    simp [h1]
  · simp only [Bool.not_eq_true', Bool.not_eq_false] at h1
    simp only [Bool.false_eq_true, false_iff, not_and]
    intro _
    omega
  · simp only [Bool.not_eq_true', Bool.not_eq_false] at h1
    simp only [true_iff]
    exact ⟨h1, by omega⟩

/-- Witness for C9: evaluating the boundary decision on a version with major
version 2, which is rejected whatever the timestamp. -/
theorem getReport_boundary_witness :
    (getReportOK ("2.0") 1760000000 1760000000000000000 = true ↔
      (goStartsWith ("1.") ("2.0") = true ∧
        (1760000000000000000 : Int) - sixMonthsNs ≤ 1760000000 * 1000000000 ∧
        (1760000000 : Int) * 1000000000 ≤ 1760000000000000000 + sixMonthsNs)) :=
  (getReport_boundary ("2.0") 1760000000 1760000000000000000).1

end PgdashApi
